import Mathlib

/-!
Shallow embedding of `src/app.py` (a Flask webhook relay between WATI and
Zoho Bigin).  JSON values are modelled by an inductive `Json` with
Python-style truthiness and the Python behaviour of `x[k]`, `len`, `in` and
`dict.get` (raising `TypeError` / `KeyError` / `IndexError` /
`AttributeError` where Python would).  The process-wide mutable state
(`ZOHO_ACCESS_TOKEN` and the sequence of outbound HTTP calls made so far)
is threaded explicitly; the upstream world is an environment `Env` that
yields the response to the n-th outbound HTTP call of the process.
Uncaught Python exceptions are modelled by `Except.error`, which also
carries the state reached so far (the HTTP calls already made).
-/

namespace Wati

/-- A JSON value, as manipulated by the Python code. -/
inductive Json where
  | null : Json
  | bool : Bool → Json
  | num : Int → Json
  | str : String → Json
  | arr : List Json → Json
  | obj : List (String × Json) → Json

/-- Python exceptions that the code under `src/app.py` can raise. -/
inductive PyErr where
  | keyError : PyErr
  | typeError : PyErr
  | indexError : PyErr
  | attributeError : PyErr
deriving DecidableEq

/-- Python truthiness (`bool(x)`) of a JSON value. -/
def Json.truthy : Json → Bool
  | Json.null => false
  | Json.bool b => b
  | Json.num n => n != 0
  | Json.str s => s != ""
  | Json.arr xs => !xs.isEmpty
  | Json.obj kvs => !kvs.isEmpty

/-- Python `x[k]` with a string key `k`: dict lookup (KeyError when the key
is absent); on a string, list or any other non-dict value a TypeError. -/
def Json.getItemS : Json → String → Except PyErr Json
  | Json.obj kvs, k =>
    match kvs.lookup k with
    | some v => Except.ok v
    | none => Except.error PyErr.keyError
  | _, _ => Except.error PyErr.typeError

/-- Python `x[i]` with an integer index `i ≥ 0`. -/
def Json.getItemI : Json → Nat → Except PyErr Json
  | Json.arr xs, i =>
    match xs.get? i with
    | some v => Except.ok v
    | none => Except.error PyErr.indexError
  | Json.str s, i =>
    match s.toList.get? i with
    | some c => Except.ok (Json.str (String.singleton c))
    | none => Except.error PyErr.indexError
  | Json.obj _, _ => Except.error PyErr.keyError
  | _, _ => Except.error PyErr.typeError

/-- `a` occurs in `s` as a substring (Python `a in s` for strings). -/
def strOccurs (a s : String) : Bool :=
  a == "" || (s.splitOn a).length ≥ 2

/-- Python `k in x` for a string `k`: key membership for dicts, element
membership for lists, substring test for strings, TypeError otherwise. -/
def Json.containsKey : Json → String → Except PyErr Bool
  | Json.obj kvs, k => Except.ok (kvs.any (fun kv => kv.1 == k))
  | Json.arr xs, k =>
    Except.ok (xs.any (fun x => match x with | Json.str s => s == k | _ => false))
  | Json.str s, k => Except.ok (strOccurs k s)
  | _, _ => Except.error PyErr.typeError

/-- Python `len(x)`: defined for strings, lists and dicts, TypeError
otherwise. -/
def Json.pyLen : Json → Except PyErr Nat
  | Json.str s => Except.ok s.length
  | Json.arr xs => Except.ok xs.length
  | Json.obj kvs => Except.ok kvs.length
  | _ => Except.error PyErr.typeError

/-- Python `x.get(k)` for dicts (`None` when absent); any non-dict value
has no `get` method, so an AttributeError is raised. -/
def Json.dictGet : Json → String → Except PyErr Json
  | Json.obj kvs, k =>
    match kvs.lookup k with
    | some v => Except.ok v
    | none => Except.ok Json.null
  | _, _ => Except.error PyErr.attributeError

/-- An upstream HTTP response: status code plus parsed JSON body
(`response.status_code` and `response.json()`). -/
structure HttpResp where
  status : Nat
  body : Json

/-- The upstream world: `resp n` is the response received by the n-th
outbound HTTP call this process makes (counting from 0). -/
structure Env where
  resp : Nat → HttpResp

/-- One outbound HTTP call, as recorded in the trace.  Each constructor
records the request data that the Python code puts in the call, plus the
value of `ZOHO_ACCESS_TOKEN` used to build the Authorization header. -/
inductive Event where
  | refreshCall : Event
  | searchGet : Json → Json → Event
  | createPost : Json → Json → Event
  | notePost : Json → Json → Json → Event

def Event.isRefresh : Event → Bool
  | Event.refreshCall => true
  | _ => false

def Event.isSearch : Event → Bool
  | Event.searchGet _ _ => true
  | _ => false

def Event.isCreate : Event → Bool
  | Event.createPost _ _ => true
  | _ => false

def Event.isNote : Event → Bool
  | Event.notePost _ _ _ => true
  | _ => false

/-- Process state: the global `ZOHO_ACCESS_TOKEN` (`Json.null` models
Python `None`) and the outbound HTTP calls made so far, in order. -/
structure St where
  token : Json
  trace : List Event

/-- Record one more outbound HTTP call. -/
def push (st : St) (e : Event) : St :=
  St.mk st.token (st.trace ++ [e])

/-- `refresh_access_token` (src/app.py lines 24-46): POST to the OAuth
endpoint; on HTTP 200 store `token_data["access_token"]` in the global and
return it, otherwise return `None` leaving the global unchanged. -/
def refresh_access_token (env : Env) (st : St) : Except PyErr Json × St :=
  if (env.resp st.trace.length).status = 200 then
    match (env.resp st.trace.length).body.getItemS "access_token" with
    | Except.ok tok => (Except.ok tok, St.mk tok (st.trace ++ [Event.refreshCall]))
    | Except.error e => (Except.error e, push st Event.refreshCall)
  else
    (Except.ok Json.null, push st Event.refreshCall)

/-- The extraction `data["data"][0]["id"]` guarded by
`"data" in data and len(data["data"]) > 0` performed by
`search_zoho_contact` on a 200 response body (src/app.py lines 133-137);
yields `None` when the guard fails. -/
def searchParse (b : Json) : Except PyErr Json :=
  match b.containsKey "data" with
  | Except.error e => Except.error e
  | Except.ok false => Except.ok Json.null
  | Except.ok true =>
    match b.getItemS "data" with
    | Except.error e => Except.error e
    | Except.ok dl =>
      match dl.pyLen with
      | Except.error e => Except.error e
      | Except.ok n =>
        if n > 0 then
          match dl.getItemI 0 with
          | Except.error e => Except.error e
          | Except.ok first => first.getItemS "id"
        else Except.ok Json.null

/-- What `search_zoho_contact` returns once it holds its final response:
the parsed contact id on a 200 response, `None` on any other status
(src/app.py lines 132-137). -/
def searchFinish (r : HttpResp) : Except PyErr Json :=
  if r.status = 200 then searchParse r.body else Except.ok Json.null

/-- `search_zoho_contact` (src/app.py lines 118-137).  The URL is
`ZOHO_BIGIN_SEARCH_URL + phone`, so a non-string phone raises a TypeError
before any call is made.  A 401 first response triggers one
`refresh_access_token` and one reissue with the rebuilt header. -/
def search_zoho_contact (env : Env) (st : St) (phone : Json) : Except PyErr Json × St :=
  match phone with
  | Json.str _ =>
    if (env.resp st.trace.length).status = 401 then
      match refresh_access_token env (push st (Event.searchGet phone st.token)) with
      | (Except.error e, st2) => (Except.error e, st2)
      | (Except.ok _, st2) =>
        (searchFinish (env.resp st2.trace.length),
         push st2 (Event.searchGet phone st2.token))
    else
      (searchFinish (env.resp st.trace.length),
       push st (Event.searchGet phone st.token))
  | _ => (Except.error PyErr.typeError, st)

/-- The `contact_data` bulk-record envelope built by `create_zoho_contact`
(src/app.py lines 148-154). -/
def mkContactData (name phone description : Json) : Json :=
  Json.obj [("data", Json.arr [Json.obj
    [("Last_Name", name), ("Phone", phone), ("Description", description)]])]

/-- `create_zoho_contact` (src/app.py lines 139-169): POST the bulk-record
envelope; one refresh-and-retry on 401; always return `response.json()`. -/
def create_zoho_contact (env : Env) (st : St) (name phone description : Json) :
    Except PyErr Json × St :=
  if (env.resp st.trace.length).status = 401 then
    match refresh_access_token env
        (push st (Event.createPost (mkContactData name phone description) st.token)) with
    | (Except.error e, st2) => (Except.error e, st2)
    | (Except.ok _, st2) =>
      (Except.ok (env.resp st2.trace.length).body,
       push st2 (Event.createPost (mkContactData name phone description) st2.token))
  else
    (Except.ok (env.resp st.trace.length).body,
     push st (Event.createPost (mkContactData name phone description) st.token))

/-- The `note_data` envelope built by `add_message_to_notes`
(src/app.py lines 181-187). -/
def mkNoteData (contactId message : Json) : Json :=
  Json.obj [("data", Json.arr [Json.obj
    [("Parent_Id", contactId), ("Note_Title", Json.str "WhatsApp Message"),
     ("Note_Content", message)]])]

/-- `add_message_to_notes` (src/app.py lines 171-202): POST the note
envelope to the per-contact notes URL; one refresh-and-retry on 401;
always return `response.json()`. -/
def add_message_to_notes (env : Env) (st : St) (contactId message : Json) :
    Except PyErr Json × St :=
  if (env.resp st.trace.length).status = 401 then
    match refresh_access_token env
        (push st (Event.notePost contactId (mkNoteData contactId message) st.token)) with
    | (Except.error e, st2) => (Except.error e, st2)
    | (Except.ok _, st2) =>
      (Except.ok (env.resp st2.trace.length).body,
       push st2 (Event.notePost contactId (mkNoteData contactId message) st2.token))
  else
    (Except.ok (env.resp st.trace.length).body,
     push st (Event.notePost contactId (mkNoteData contactId message) st.token))

/-- The handler's error bodies `jsonify({"error": msg})`. -/
def errJson (msg : String) : Json :=
  Json.obj [("error", Json.str msg)]

/-- The handler's success body
`jsonify({"message": "Webhook received successfully", "zoho_response": zr})`. -/
def successEnvelope (zr : Json) : Json :=
  Json.obj [("message", Json.str "Webhook received successfully"),
    ("zoho_response", zr)]

/-- Lines 82-116 of `wati_webhook`: the part after the access-token block —
empty-body check, field extraction via `data.get`, field truthiness
validation, then contact resolution and dispatch to notes/creation. -/
def webhook_core (env : Env) (st : St) (data : Json) : Except PyErr (Json × Nat) × St :=
  if data.truthy then
    match data.dictGet "text" with
    | Except.error e => (Except.error e, st)
    | Except.ok message =>
      match data.dictGet "waId" with
      | Except.error e => (Except.error e, st)
      | Except.ok phoneNumber =>
        match data.dictGet "senderName" with
        | Except.error e => (Except.error e, st)
        | Except.ok senderName =>
          if !phoneNumber.truthy || !message.truthy || !senderName.truthy then
            (Except.ok (errJson "Missing phone number, message, or sender name", 400), st)
          else
            match search_zoho_contact env st phoneNumber with
            | (Except.error e, st1) => (Except.error e, st1)
            | (Except.ok contactId, st1) =>
              if contactId.truthy then
                match add_message_to_notes env st1 contactId message with
                | (Except.error e, st2) => (Except.error e, st2)
                | (Except.ok zr, st2) => (Except.ok (successEnvelope zr, 200), st2)
              else
                match create_zoho_contact env st1 senderName phoneNumber message with
                | (Except.error e, st2) => (Except.error e, st2)
                | (Except.ok zr, st2) => (Except.ok (successEnvelope zr, 200), st2)
  else
    (Except.ok (errJson "No data received", 400), st)

/-- `wati_webhook` (src/app.py lines 62-116).  `reqBody` is the parsed
JSON request body (`none` models `request.get_json()` returning `None`).
The access-token block (lines 76-80) runs first: when the global token is
falsy a refresh is attempted, its result is assigned to the global, and a
falsy result yields the 401 response; only then does the body check run. -/
def bodyOf (reqBody : Option Json) : Json :=
  match reqBody with
  | some j => j
  | none => Json.null

def wati_webhook (env : Env) (st : St) (reqBody : Option Json) :
    Except PyErr (Json × Nat) × St :=
  if st.token.truthy then
    webhook_core env st (bodyOf reqBody)
  else
    match refresh_access_token env st with
    | (Except.error e, st1) => (Except.error e, st1)
    | (Except.ok t, st1) =>
      if t.truthy then
        webhook_core env (St.mk t st1.trace) (bodyOf reqBody)
      else
        (Except.ok (errJson "Failed to authenticate with Zoho", 401), St.mk t st1.trace)

/-- The payload `{"text": m, "waId": p, "senderName": s}` of a webhook
request with string-valued fields, as in the spec's data model. -/
def payloadJ (m p s : String) : Json :=
  Json.obj [("text", Json.str m), ("waId", Json.str p), ("senderName", Json.str s)]

/-- The final response of the contact search that starts when the process
has made `k` outbound calls: the response to call `k`, unless that one is
a 401, in which case a refresh consumes call `k+1` and the reissued search
consumes call `k+2`. -/
def searchFinal (env : Env) (k : Nat) : HttpResp :=
  if (env.resp k).status = 401 then env.resp (k + 2) else env.resp k

/-- The value the handler's `data.get(k)` yields on a dict payload:
the stored value, or `None` when the key is absent. -/
def pyGet (kvs : List (String × Json)) (k : String) : Json :=
  match kvs.lookup k with
  | some v => v
  | none => Json.null

/-- A refresh response is well formed when, if it is a 200, its body
yields an `access_token` (so `token_data["access_token"]` does not
raise). -/
def RefreshBodyOk (r : HttpResp) : Prop :=
  r.status = 200 → ∃ t, r.body.getItemS "access_token" = Except.ok t

/-- A search response is well formed when, if it is a 200, the extraction
`data["data"][0]["id"]` guarded by the code's checks does not raise. -/
def SearchBodyOk (r : HttpResp) : Prop :=
  r.status = 200 → ∃ v, searchParse r.body = Except.ok v

/-- All upstream responses are well formed for both extractions. -/
def EnvWF (env : Env) : Prop :=
  ∀ i, RefreshBodyOk (env.resp i) ∧ SearchBodyOk (env.resp i)

/-! Concrete environments used for counterexamples and witnesses. -/

/-- First call 401; refresh answers 200 with an empty JSON object. -/
def envC1 : Env :=
  Env.mk (fun n => if n = 0 then HttpResp.mk 401 Json.null
    else HttpResp.mk 200 (Json.obj []))

/-- Search answers 200 with `{"data": [{"id": ""}]}` (an existing match
whose id is the empty string); later calls answer 201. -/
def envC2 : Env :=
  Env.mk (fun n => if n = 0
    then HttpResp.mk 200 (Json.obj [("data", Json.arr [Json.obj [("id", Json.str "")]])])
    else HttpResp.mk 201 (Json.obj []))

/-- Every call answers 200 with `{"access_token": "T"}`. -/
def envC3 : Env :=
  Env.mk (fun _ => HttpResp.mk 200 (Json.obj [("access_token", Json.str "T")]))

/-- Search answers 200 with `{"data": [{}]}` (a result row without an
`id`); later calls answer 201. -/
def envC4 : Env :=
  Env.mk (fun n => if n = 0
    then HttpResp.mk 200 (Json.obj [("data", Json.arr [Json.obj []])])
    else HttpResp.mk 201 (Json.obj []))

/-- Every call answers 404 with a null body. -/
def envC4w : Env := Env.mk (fun _ => HttpResp.mk 404 Json.null)

/-- Every call answers 400 with a null body (refresh always fails). -/
def envC5 : Env := Env.mk (fun _ => HttpResp.mk 400 Json.null)

/-- Every call answers 503 with a null body. -/
def envC6 : Env := Env.mk (fun _ => HttpResp.mk 503 Json.null)

/-- Every call answers 200 with `{"access_token": "newtok"}`. -/
def envC6b : Env :=
  Env.mk (fun _ => HttpResp.mk 200 (Json.obj [("access_token", Json.str "newtok")]))

/-- Every call answers 404 with a null body. -/
def envC7w : Env := Env.mk (fun _ => HttpResp.mk 404 Json.null)

/-- Search answers 200 with `{"data": [{"id": "zc_42"}]}`; later calls
answer 201 with `{"status": "ok"}`. -/
def envC8 : Env :=
  Env.mk (fun n => if n = 0
    then HttpResp.mk 200 (Json.obj [("data", Json.arr [Json.obj [("id", Json.str "zc_42")]])])
    else HttpResp.mk 201 (Json.obj [("status", Json.str "ok")]))

/-- First call 401; every later call answers 503 (the refresh fails). -/
def envC9 : Env :=
  Env.mk (fun n => if n = 0 then HttpResp.mk 401 Json.null
    else HttpResp.mk 503 Json.null)

/-- Calls 0 and 2 answer 401, call 1 (the refresh) answers 503. -/
def envC1w : Env :=
  Env.mk (fun n => if n = 1 then HttpResp.mk 503 Json.null
    else HttpResp.mk 401 Json.null)

/-- Every call answers 402 with a null body (refresh always fails). -/
def envC10 : Env := Env.mk (fun _ => HttpResp.mk 402 Json.null)

/-! ### Basic lemmas about states and the refresh call -/

@[simp]
theorem push_token (st : St) (e : Event) : (push st e).token = st.token := rfl

@[simp]
theorem push_trace (st : St) (e : Event) : (push st e).trace = st.trace ++ [e] := rfl

@[simp]
theorem push_trace_length (st : St) (e : Event) :
    (push st e).trace.length = st.trace.length + 1 := by
  simp [push]

/-- A failed (non-200) refresh returns `None` and leaves the stored token
unchanged; the only side effect is the refresh HTTP call itself. -/
theorem refresh_non200 (env : Env) (st : St)
    (h : (env.resp st.trace.length).status ≠ 200) :
    refresh_access_token env st = (Except.ok Json.null, push st Event.refreshCall) := by
  unfold refresh_access_token
  rw [if_neg h]

/-- A 200 refresh whose body carries an `access_token` stores that token
and returns it. -/
theorem refresh_200_ok (env : Env) (st : St) (t : Json)
    (h : (env.resp st.trace.length).status = 200)
    (ht : (env.resp st.trace.length).body.getItemS "access_token" = Except.ok t) :
    refresh_access_token env st =
      (Except.ok t, St.mk t (st.trace ++ [Event.refreshCall])) := by
  unfold refresh_access_token
  rw [if_pos h, ht]

/-- A 200 refresh whose body has no `access_token` raises (KeyError /
TypeError) after making the refresh call, leaving the token unchanged. -/
theorem refresh_200_err (env : Env) (st : St) (e : PyErr)
    (h : (env.resp st.trace.length).status = 200)
    (he : (env.resp st.trace.length).body.getItemS "access_token" = Except.error e) :
    refresh_access_token env st = (Except.error e, push st Event.refreshCall) := by
  unfold refresh_access_token
  rw [if_pos h, he]

/-- The refresh call always appends exactly one `refreshCall` event. -/
theorem refresh_trace (env : Env) (st : St) :
    (refresh_access_token env st).2.trace = st.trace ++ [Event.refreshCall] := by
  unfold refresh_access_token
  split
  · split <;> rfl
  · rfl

/-- The stored token changes only when the refresh response is HTTP 200. -/
theorem refresh_token_change (env : Env) (st : St)
    (h : (refresh_access_token env st).2.token ≠ st.token) :
    (env.resp st.trace.length).status = 200 := by
  by_contra hne
  rw [refresh_non200 env st hne] at h
  exact h rfl

/-! ### Characterization of `search_zoho_contact` -/

/-- A non-string phone raises a TypeError while building the URL, before
any HTTP call. -/
theorem search_nonstring (env : Env) (st : St) (phone : Json)
    (h : ∀ p : String, phone ≠ Json.str p) :
    search_zoho_contact env st phone = (Except.error PyErr.typeError, st) := by
  cases phone with
  | str p => exact absurd rfl (h p)
  | null => rfl
  | bool b => rfl
  | num n => rfl
  | arr xs => rfl
  | obj kvs => rfl

/-- Search, first response not 401: one GET, outcome decided by that
response. -/
theorem search_non401 (env : Env) (st : St) (p : String)
    (h : (env.resp st.trace.length).status ≠ 401) :
    search_zoho_contact env st (Json.str p) =
      (searchFinish (env.resp st.trace.length),
       push st (Event.searchGet (Json.str p) st.token)) := by
  unfold search_zoho_contact
  rw [if_neg h]

/-- Search, first response 401, refresh fails (non-200): the GET is
reissued once with the unchanged token; the second response decides. -/
theorem search_401_refresh_non200 (env : Env) (st : St) (p : String)
    (h0 : (env.resp st.trace.length).status = 401)
    (h1 : (env.resp (st.trace.length + 1)).status ≠ 200) :
    search_zoho_contact env st (Json.str p) =
      (searchFinish (env.resp (st.trace.length + 2)),
       St.mk st.token (st.trace ++
         [Event.searchGet (Json.str p) st.token, Event.refreshCall,
          Event.searchGet (Json.str p) st.token])) := by
  unfold search_zoho_contact
  rw [if_pos h0]
  rw [refresh_non200 env (push st (Event.searchGet (Json.str p) st.token))
    (by simpa using h1)]
  simp [push, St.mk.injEq]

/-- Search, first response 401, refresh succeeds with token `t`: the GET
is reissued once with the new token; the second response decides. -/
theorem search_401_refresh_ok (env : Env) (st : St) (p : String) (t : Json)
    (h0 : (env.resp st.trace.length).status = 401)
    (h1 : (env.resp (st.trace.length + 1)).status = 200)
    (ht : (env.resp (st.trace.length + 1)).body.getItemS "access_token" = Except.ok t) :
    search_zoho_contact env st (Json.str p) =
      (searchFinish (env.resp (st.trace.length + 2)),
       St.mk t (st.trace ++
         [Event.searchGet (Json.str p) st.token, Event.refreshCall,
          Event.searchGet (Json.str p) t])) := by
  unfold search_zoho_contact
  rw [if_pos h0]
  rw [refresh_200_ok env (push st (Event.searchGet (Json.str p) st.token)) t
    (by simpa using h1) (by simpa using ht)]
  simp [push, St.mk.injEq]

/-- Search, first response 401, refresh response 200 but without an
`access_token`: the exception propagates, no reissue happens. -/
theorem search_401_refresh_err (env : Env) (st : St) (p : String) (e : PyErr)
    (h0 : (env.resp st.trace.length).status = 401)
    (h1 : (env.resp (st.trace.length + 1)).status = 200)
    (he : (env.resp (st.trace.length + 1)).body.getItemS "access_token" = Except.error e) :
    search_zoho_contact env st (Json.str p) =
      (Except.error e,
       St.mk st.token (st.trace ++
         [Event.searchGet (Json.str p) st.token, Event.refreshCall])) := by
  unfold search_zoho_contact
  rw [if_pos h0]
  rw [refresh_200_err env (push st (Event.searchGet (Json.str p) st.token)) e
    (by simpa using h1) (by simpa using he)]
  simp [push, St.mk.injEq]

/-! ### Characterization of `create_zoho_contact` -/

theorem create_non401 (env : Env) (st : St) (n p d : Json)
    (h : (env.resp st.trace.length).status ≠ 401) :
    create_zoho_contact env st n p d =
      (Except.ok (env.resp st.trace.length).body,
       push st (Event.createPost (mkContactData n p d) st.token)) := by
  unfold create_zoho_contact
  rw [if_neg h]

theorem create_401_refresh_non200 (env : Env) (st : St) (n p d : Json)
    (h0 : (env.resp st.trace.length).status = 401)
    (h1 : (env.resp (st.trace.length + 1)).status ≠ 200) :
    create_zoho_contact env st n p d =
      (Except.ok (env.resp (st.trace.length + 2)).body,
       St.mk st.token (st.trace ++
         [Event.createPost (mkContactData n p d) st.token, Event.refreshCall,
          Event.createPost (mkContactData n p d) st.token])) := by
  unfold create_zoho_contact
  rw [if_pos h0]
  rw [refresh_non200 env (push st (Event.createPost (mkContactData n p d) st.token))
    (by simpa using h1)]
  simp [push, St.mk.injEq]

theorem create_401_refresh_ok (env : Env) (st : St) (n p d t : Json)
    (h0 : (env.resp st.trace.length).status = 401)
    (h1 : (env.resp (st.trace.length + 1)).status = 200)
    (ht : (env.resp (st.trace.length + 1)).body.getItemS "access_token" = Except.ok t) :
    create_zoho_contact env st n p d =
      (Except.ok (env.resp (st.trace.length + 2)).body,
       St.mk t (st.trace ++
         [Event.createPost (mkContactData n p d) st.token, Event.refreshCall,
          Event.createPost (mkContactData n p d) t])) := by
  unfold create_zoho_contact
  rw [if_pos h0]
  rw [refresh_200_ok env (push st (Event.createPost (mkContactData n p d) st.token)) t
    (by simpa using h1) (by simpa using ht)]
  simp [push, St.mk.injEq]

theorem create_401_refresh_err (env : Env) (st : St) (n p d : Json) (e : PyErr)
    (h0 : (env.resp st.trace.length).status = 401)
    (h1 : (env.resp (st.trace.length + 1)).status = 200)
    (he : (env.resp (st.trace.length + 1)).body.getItemS "access_token" = Except.error e) :
    create_zoho_contact env st n p d =
      (Except.error e,
       St.mk st.token (st.trace ++
         [Event.createPost (mkContactData n p d) st.token, Event.refreshCall])) := by
  unfold create_zoho_contact
  rw [if_pos h0]
  rw [refresh_200_err env (push st (Event.createPost (mkContactData n p d) st.token)) e
    (by simpa using h1) (by simpa using he)]
  simp [push, St.mk.injEq]

/-! ### Characterization of `add_message_to_notes` -/

theorem note_non401 (env : Env) (st : St) (cid m : Json)
    (h : (env.resp st.trace.length).status ≠ 401) :
    add_message_to_notes env st cid m =
      (Except.ok (env.resp st.trace.length).body,
       push st (Event.notePost cid (mkNoteData cid m) st.token)) := by
  unfold add_message_to_notes
  rw [if_neg h]

theorem note_401_refresh_non200 (env : Env) (st : St) (cid m : Json)
    (h0 : (env.resp st.trace.length).status = 401)
    (h1 : (env.resp (st.trace.length + 1)).status ≠ 200) :
    add_message_to_notes env st cid m =
      (Except.ok (env.resp (st.trace.length + 2)).body,
       St.mk st.token (st.trace ++
         [Event.notePost cid (mkNoteData cid m) st.token, Event.refreshCall,
          Event.notePost cid (mkNoteData cid m) st.token])) := by
  unfold add_message_to_notes
  rw [if_pos h0]
  rw [refresh_non200 env (push st (Event.notePost cid (mkNoteData cid m) st.token))
    (by simpa using h1)]
  simp [push, St.mk.injEq]

theorem note_401_refresh_ok (env : Env) (st : St) (cid m t : Json)
    (h0 : (env.resp st.trace.length).status = 401)
    (h1 : (env.resp (st.trace.length + 1)).status = 200)
    (ht : (env.resp (st.trace.length + 1)).body.getItemS "access_token" = Except.ok t) :
    add_message_to_notes env st cid m =
      (Except.ok (env.resp (st.trace.length + 2)).body,
       St.mk t (st.trace ++
         [Event.notePost cid (mkNoteData cid m) st.token, Event.refreshCall,
          Event.notePost cid (mkNoteData cid m) t])) := by
  unfold add_message_to_notes
  rw [if_pos h0]
  rw [refresh_200_ok env (push st (Event.notePost cid (mkNoteData cid m) st.token)) t
    (by simpa using h1) (by simpa using ht)]
  simp [push, St.mk.injEq]

theorem note_401_refresh_err (env : Env) (st : St) (cid m : Json) (e : PyErr)
    (h0 : (env.resp st.trace.length).status = 401)
    (h1 : (env.resp (st.trace.length + 1)).status = 200)
    (he : (env.resp (st.trace.length + 1)).body.getItemS "access_token" = Except.error e) :
    add_message_to_notes env st cid m =
      (Except.error e,
       St.mk st.token (st.trace ++
         [Event.notePost cid (mkNoteData cid m) st.token, Event.refreshCall])) := by
  unfold add_message_to_notes
  rw [if_pos h0]
  rw [refresh_200_err env (push st (Event.notePost cid (mkNoteData cid m) st.token)) e
    (by simpa using h1) (by simpa using he)]
  simp [push, St.mk.injEq]

/-! ### Trace-delta shapes of the three CRM calls -/

/-- Whatever happens, a search invocation only ever appends search GETs
(for its own phone number) and refresh calls to the trace. -/
theorem search_delta (env : Env) (st : St) (phone : Json) :
    ∃ L, (search_zoho_contact env st phone).2.trace = st.trace ++ L ∧
      ∀ e ∈ L, (∃ a, e = Event.searchGet phone a) ∨ e = Event.refreshCall := by
  cases phone with
  | str p =>
    by_cases h0 : (env.resp st.trace.length).status = 401
    · by_cases h1 : (env.resp (st.trace.length + 1)).status = 200
      · cases hg : (env.resp (st.trace.length + 1)).body.getItemS "access_token" with
        | error e =>
          rw [search_401_refresh_err env st p e h0 h1 hg]
          refine ⟨_, rfl, ?_⟩
          intro e he
          simp only [List.mem_cons, List.not_mem_nil, or_false] at he
          rcases he with rfl | rfl
          · exact Or.inl ⟨st.token, rfl⟩
          · exact Or.inr rfl
        | ok t =>
          rw [search_401_refresh_ok env st p t h0 h1 hg]
          refine ⟨_, rfl, ?_⟩
          intro e he
          simp only [List.mem_cons, List.not_mem_nil, or_false] at he
          rcases he with rfl | rfl | rfl
          · exact Or.inl ⟨st.token, rfl⟩
          · exact Or.inr rfl
          · exact Or.inl ⟨t, rfl⟩
      · rw [search_401_refresh_non200 env st p h0 h1]
        refine ⟨_, rfl, ?_⟩
        intro e he
        simp only [List.mem_cons, List.not_mem_nil, or_false] at he
        rcases he with rfl | rfl | rfl
        · exact Or.inl ⟨st.token, rfl⟩
        · exact Or.inr rfl
        · exact Or.inl ⟨st.token, rfl⟩
    · rw [search_non401 env st p h0]
      refine ⟨[Event.searchGet (Json.str p) st.token], by simp [push], ?_⟩
      intro e he
      simp only [List.mem_cons, List.not_mem_nil, or_false] at he
      subst he
      exact Or.inl ⟨st.token, rfl⟩
  | null => exact ⟨[], by simp [search_zoho_contact], by intro e he; cases he⟩
  | bool b => exact ⟨[], by simp [search_zoho_contact], by intro e he; cases he⟩
  | num n => exact ⟨[], by simp [search_zoho_contact], by intro e he; cases he⟩
  | arr xs => exact ⟨[], by simp [search_zoho_contact], by intro e he; cases he⟩
  | obj kvs => exact ⟨[], by simp [search_zoho_contact], by intro e he; cases he⟩

/-- A create invocation appends at least one create POST carrying exactly
the bulk-record envelope, and nothing besides such POSTs and refreshes. -/
theorem create_delta (env : Env) (st : St) (n p d : Json) :
    ∃ L, (create_zoho_contact env st n p d).2.trace = st.trace ++ L ∧
      (∀ e ∈ L, (∃ a, e = Event.createPost (mkContactData n p d) a) ∨ e = Event.refreshCall) ∧
      (∃ a, Event.createPost (mkContactData n p d) a ∈ L) := by
  by_cases h0 : (env.resp st.trace.length).status = 401
  · by_cases h1 : (env.resp (st.trace.length + 1)).status = 200
    · cases hg : (env.resp (st.trace.length + 1)).body.getItemS "access_token" with
      | error e =>
        rw [create_401_refresh_err env st n p d e h0 h1 hg]
        refine ⟨_, rfl, ?_, ⟨st.token, by simp⟩⟩
        intro e he
        simp only [List.mem_cons, List.not_mem_nil, or_false] at he
        rcases he with rfl | rfl
        · exact Or.inl ⟨st.token, rfl⟩
        · exact Or.inr rfl
      | ok t =>
        rw [create_401_refresh_ok env st n p d t h0 h1 hg]
        refine ⟨_, rfl, ?_, ⟨st.token, by simp⟩⟩
        intro e he
        simp only [List.mem_cons, List.not_mem_nil, or_false] at he
        rcases he with rfl | rfl | rfl
        · exact Or.inl ⟨st.token, rfl⟩
        · exact Or.inr rfl
        · exact Or.inl ⟨t, rfl⟩
    · rw [create_401_refresh_non200 env st n p d h0 h1]
      refine ⟨_, rfl, ?_, ⟨st.token, by simp⟩⟩
      intro e he
      simp only [List.mem_cons, List.not_mem_nil, or_false] at he
      rcases he with rfl | rfl | rfl
      · exact Or.inl ⟨st.token, rfl⟩
      · exact Or.inr rfl
      · exact Or.inl ⟨st.token, rfl⟩
  · rw [create_non401 env st n p d h0]
    refine ⟨[Event.createPost (mkContactData n p d) st.token], by simp [push],
      ?_, ⟨st.token, by simp⟩⟩
    intro e he
    simp only [List.mem_cons, List.not_mem_nil, or_false] at he
    subst he
    exact Or.inl ⟨st.token, rfl⟩

/-- A note invocation appends at least one note POST carrying exactly the
note envelope for its contact id and message, and nothing besides such
POSTs and refreshes. -/
theorem note_delta (env : Env) (st : St) (cid m : Json) :
    ∃ L, (add_message_to_notes env st cid m).2.trace = st.trace ++ L ∧
      (∀ e ∈ L, (∃ a, e = Event.notePost cid (mkNoteData cid m) a) ∨ e = Event.refreshCall) ∧
      (∃ a, Event.notePost cid (mkNoteData cid m) a ∈ L) := by
  by_cases h0 : (env.resp st.trace.length).status = 401
  · by_cases h1 : (env.resp (st.trace.length + 1)).status = 200
    · cases hg : (env.resp (st.trace.length + 1)).body.getItemS "access_token" with
      | error e =>
        rw [note_401_refresh_err env st cid m e h0 h1 hg]
        refine ⟨_, rfl, ?_, ⟨st.token, by simp⟩⟩
        intro e he
        simp only [List.mem_cons, List.not_mem_nil, or_false] at he
        rcases he with rfl | rfl
        · exact Or.inl ⟨st.token, rfl⟩
        · exact Or.inr rfl
      | ok t =>
        rw [note_401_refresh_ok env st cid m t h0 h1 hg]
        refine ⟨_, rfl, ?_, ⟨st.token, by simp⟩⟩
        intro e he
        simp only [List.mem_cons, List.not_mem_nil, or_false] at he
        rcases he with rfl | rfl | rfl
        · exact Or.inl ⟨st.token, rfl⟩
        · exact Or.inr rfl
        · exact Or.inl ⟨t, rfl⟩
    · rw [note_401_refresh_non200 env st cid m h0 h1]
      refine ⟨_, rfl, ?_, ⟨st.token, by simp⟩⟩
      intro e he
      simp only [List.mem_cons, List.not_mem_nil, or_false] at he
      rcases he with rfl | rfl | rfl
      · exact Or.inl ⟨st.token, rfl⟩
      · exact Or.inr rfl
      · exact Or.inl ⟨st.token, rfl⟩
  · rw [note_non401 env st cid m h0]
    refine ⟨[Event.notePost cid (mkNoteData cid m) st.token], by simp [push],
      ?_, ⟨st.token, by simp⟩⟩
    intro e he
    simp only [List.mem_cons, List.not_mem_nil, or_false] at he
    subst he
    exact Or.inl ⟨st.token, rfl⟩

/-! ### Handler-level lemmas -/

@[simp]
theorem payload_truthy (m p s : String) : (payloadJ m p s).truthy = true := rfl

@[simp]
theorem payload_get_text (m p s : String) :
    (payloadJ m p s).dictGet "text" = Except.ok (Json.str m) := rfl

@[simp]
theorem payload_get_waId (m p s : String) :
    (payloadJ m p s).dictGet "waId" = Except.ok (Json.str p) := rfl

@[simp]
theorem payload_get_senderName (m p s : String) :
    (payloadJ m p s).dictGet "senderName" = Except.ok (Json.str s) := rfl

@[simp]
theorem str_truthy (s : String) : (Json.str s).truthy = (s != "") := rfl

/-- With a truthy stored token the handler goes straight to the body of
the endpoint. -/
theorem wati_warm (env : Env) (st : St) (b : Option Json)
    (h : st.token.truthy = true) :
    wati_webhook env st b = webhook_core env st (bodyOf b) := by
  unfold wati_webhook
  rw [if_pos h]

/-- With a falsy stored token and a refresh that yields a truthy token,
the handler performs the refresh and then proceeds as usual. -/
theorem wati_cold_ok (env : Env) (st : St) (b : Option Json) (t : Json)
    (h : st.token.truthy = false)
    (h200 : (env.resp st.trace.length).status = 200)
    (ht : (env.resp st.trace.length).body.getItemS "access_token" = Except.ok t)
    (htr : t.truthy = true) :
    wati_webhook env st b =
      webhook_core env (St.mk t (st.trace ++ [Event.refreshCall])) (bodyOf b) := by
  unfold wati_webhook
  rw [if_neg (by simp [h]), refresh_200_ok env st t h200 ht]
  simp only [htr, if_true]

/-- With a falsy stored token and a failed (non-200) refresh, the handler
answers 401 after the refresh call, storing `None` as the token. -/
theorem wati_cold_fail (env : Env) (st : St) (b : Option Json)
    (h : st.token.truthy = false)
    (hs : (env.resp st.trace.length).status ≠ 200) :
    wati_webhook env st b =
      (Except.ok (errJson "Failed to authenticate with Zoho", 401),
       St.mk Json.null (st.trace ++ [Event.refreshCall])) := by
  unfold wati_webhook
  rw [if_neg (by simp [h]), refresh_non200 env st hs]
  rfl

/-- Falsy token, refresh response 200 without `access_token`: the
exception propagates after the refresh call. -/
theorem wati_cold_err (env : Env) (st : St) (b : Option Json) (e : PyErr)
    (h : st.token.truthy = false)
    (h200 : (env.resp st.trace.length).status = 200)
    (he : (env.resp st.trace.length).body.getItemS "access_token" = Except.error e) :
    wati_webhook env st b = (Except.error e, push st Event.refreshCall) := by
  unfold wati_webhook
  rw [if_neg (by simp [h]), refresh_200_err env st e h200 he]

/-- A falsy parsed body short-circuits to the 400 "No data received"
response with no outbound call. -/
theorem core_falsy (env : Env) (st : St) (data : Json)
    (h : data.truthy = false) :
    webhook_core env st data = (Except.ok (errJson "No data received", 400), st) := by
  unfold webhook_core
  rw [if_neg (by simp [h])]

/-- On a payload whose three fields are non-empty strings, the handler
body reduces to the contact-resolution dispatch. -/
theorem core_valid (env : Env) (st : St) (m p s : String)
    (hm : m ≠ "") (hp : p ≠ "") (hs : s ≠ "") :
    webhook_core env st (payloadJ m p s) =
      (match search_zoho_contact env st (Json.str p) with
       | (Except.error e, st1) => (Except.error e, st1)
       | (Except.ok contactId, st1) =>
         if contactId.truthy then
           match add_message_to_notes env st1 contactId (Json.str m) with
           | (Except.error e, st2) => (Except.error e, st2)
           | (Except.ok zr, st2) => (Except.ok (successEnvelope zr, 200), st2)
         else
           match create_zoho_contact env st1 (Json.str s) (Json.str p) (Json.str m) with
           | (Except.error e, st2) => (Except.error e, st2)
           | (Except.ok zr, st2) => (Except.ok (successEnvelope zr, 200), st2)) := by
  unfold webhook_core
  rw [if_pos (show (payloadJ m p s).truthy = true from rfl)]
  simp only [payload_get_text, payload_get_waId, payload_get_senderName]
  rw [if_neg (show ¬((!(Json.str p).truthy || !(Json.str m).truthy
        || !(Json.str s).truthy) = true) by simp [Json.truthy, hm, hp, hs])]

/-- Falsy token, refresh 200 but the returned token is falsy: the handler
answers 401 after storing the falsy token. -/
theorem wati_cold_falsy (env : Env) (st : St) (b : Option Json) (t : Json)
    (h : st.token.truthy = false)
    (h200 : (env.resp st.trace.length).status = 200)
    (ht : (env.resp st.trace.length).body.getItemS "access_token" = Except.ok t)
    (htr : t.truthy = false) :
    wati_webhook env st b =
      (Except.ok (errJson "Failed to authenticate with Zoho", 401),
       St.mk t (st.trace ++ [Event.refreshCall])) := by
  unfold wati_webhook
  rw [if_neg (by simp [h]), refresh_200_ok env st t h200 ht]
  simp only [htr, Bool.false_eq_true, if_false]

@[simp]
theorem bodyOf_some (j : Json) : bodyOf (some j) = j := rfl

@[simp]
theorem bodyOf_none : bodyOf none = Json.null := rfl

theorem searchFinish_non200 (r : HttpResp) (h : r.status ≠ 200) :
    searchFinish r = Except.ok Json.null := by
  unfold searchFinish
  rw [if_neg h]

theorem dictGet_obj (kvs : List (String × Json)) (k : String) :
    (Json.obj kvs).dictGet k = Except.ok (pyGet kvs k) := by
  unfold pyGet
  cases h : kvs.lookup k with
  | some v => simp [Json.dictGet, h]
  | none => simp [Json.dictGet, h]

theorem truthy_of_lookup_some (kvs : List (String × Json)) (k : String) (v : Json)
    (h : kvs.lookup k = some v) : (Json.obj kvs).truthy = true := by
  cases kvs with
  | nil => simp [List.lookup] at h
  | cons a l => rfl

/-- If any of the three extracted field values is falsy, a truthy object
payload is answered with the 400 missing-fields response before any
outbound call. -/
theorem core_obj_missing (env : Env) (st : St) (kvs : List (String × Json))
    (h : (pyGet kvs "waId").truthy = false ∨ (pyGet kvs "text").truthy = false
       ∨ (pyGet kvs "senderName").truthy = false)
    (htr : (Json.obj kvs).truthy = true) :
    webhook_core env st (Json.obj kvs) =
      (Except.ok (errJson "Missing phone number, message, or sender name", 400), st) := by
  unfold webhook_core
  rw [if_pos htr]
  simp only [dictGet_obj]
  rcases h with h | h | h
  all_goals rw [if_pos (by simp [h])]

/-- Any object payload with a missing or falsy required field is answered
with some 400 error and no state change. -/
theorem core_obj_400 (env : Env) (st : St) (kvs : List (String × Json))
    (h : (pyGet kvs "waId").truthy = false ∨ (pyGet kvs "text").truthy = false
       ∨ (pyGet kvs "senderName").truthy = false) :
    ∃ msg, webhook_core env st (Json.obj kvs) =
      (Except.ok (errJson msg, 400), st) := by
  by_cases htr : (Json.obj kvs).truthy = true
  · exact ⟨"Missing phone number, message, or sender name", core_obj_missing env st kvs h htr⟩
  · exact ⟨"No data received", core_falsy env st _ (by simpa using htr)⟩

/-- If the endpoint body never makes a call on this request body, the
whole handler appends at most a refresh call to the trace. -/
theorem wati_delta_refresh_only (env : Env) (st : St) (b : Option Json)
    (hcore : ∀ st1, (webhook_core env st1 (bodyOf b)).2 = st1) :
    ∃ L, (wati_webhook env st b).2.trace = st.trace ++ L ∧
      ∀ e ∈ L, e = Event.refreshCall := by
  by_cases hw : st.token.truthy = true
  · rw [wati_warm env st b hw]
    exact ⟨[], by simp [hcore st], fun e he => absurd he (List.not_mem_nil e)⟩
  · replace hw : st.token.truthy = false := by simpa using hw
    by_cases h200 : (env.resp st.trace.length).status = 200
    · cases hg : (env.resp st.trace.length).body.getItemS "access_token" with
      | error e =>
        rw [wati_cold_err env st b e hw h200 hg]
        refine ⟨[Event.refreshCall], by simp [push], ?_⟩
        intro e he
        simpa using he
      | ok t =>
        by_cases htr : t.truthy = true
        · rw [wati_cold_ok env st b t hw h200 hg htr]
          refine ⟨[Event.refreshCall], ?_, ?_⟩
          · rw [hcore (St.mk t (st.trace ++ [Event.refreshCall]))]
          · intro e he
            simpa using he
        · rw [wati_cold_falsy env st b t hw h200 hg (by simpa using htr)]
          refine ⟨[Event.refreshCall], rfl, ?_⟩
          intro e he
          simpa using he
    · rw [wati_cold_fail env st b hw h200]
      refine ⟨[Event.refreshCall], rfl, ?_⟩
      intro e he
      simpa using he

theorem searchFinish_of_wf (r : HttpResp) (h : SearchBodyOk r) :
    ∃ v, searchFinish r = Except.ok v := by
  by_cases hs : r.status = 200
  · obtain ⟨v, hv⟩ := h hs
    exact ⟨v, by unfold searchFinish; rw [if_pos hs, hv]⟩
  · exact ⟨Json.null, searchFinish_non200 r hs⟩

/-- Under well-formed responses, a search never raises. -/
theorem search_ok (env : Env) (hwf : EnvWF env) (st : St) (p : String) :
    ∃ cid st1, search_zoho_contact env st (Json.str p) = (Except.ok cid, st1) := by
  by_cases h0 : (env.resp st.trace.length).status = 401
  · by_cases h1 : (env.resp (st.trace.length + 1)).status = 200
    · obtain ⟨t, ht⟩ := (hwf (st.trace.length + 1)).1 h1
      obtain ⟨v, hv⟩ := searchFinish_of_wf _ ((hwf (st.trace.length + 2)).2)
      exact ⟨v, _, by rw [search_401_refresh_ok env st p t h0 h1 ht, hv]⟩
    · obtain ⟨v, hv⟩ := searchFinish_of_wf _ ((hwf (st.trace.length + 2)).2)
      exact ⟨v, _, by rw [search_401_refresh_non200 env st p h0 h1, hv]⟩
  · obtain ⟨v, hv⟩ := searchFinish_of_wf _ ((hwf st.trace.length).2)
    exact ⟨v, _, by rw [search_non401 env st p h0, hv]⟩

/-- Under well-formed responses, a create call returns the body of some
upstream response and never raises. -/
theorem create_ok (env : Env) (hwf : EnvWF env) (st : St) (n p d : Json) :
    ∃ j st1, create_zoho_contact env st n p d =
      (Except.ok (env.resp j).body, st1) := by
  by_cases h0 : (env.resp st.trace.length).status = 401
  · by_cases h1 : (env.resp (st.trace.length + 1)).status = 200
    · obtain ⟨t, ht⟩ := (hwf (st.trace.length + 1)).1 h1
      exact ⟨st.trace.length + 2, _, create_401_refresh_ok env st n p d t h0 h1 ht⟩
    · exact ⟨st.trace.length + 2, _, create_401_refresh_non200 env st n p d h0 h1⟩
  · exact ⟨st.trace.length, _, create_non401 env st n p d h0⟩

/-- Under well-formed responses, a note call returns the body of some
upstream response and never raises. -/
theorem note_ok (env : Env) (hwf : EnvWF env) (st : St) (cid m : Json) :
    ∃ j st1, add_message_to_notes env st cid m =
      (Except.ok (env.resp j).body, st1) := by
  by_cases h0 : (env.resp st.trace.length).status = 401
  · by_cases h1 : (env.resp (st.trace.length + 1)).status = 200
    · obtain ⟨t, ht⟩ := (hwf (st.trace.length + 1)).1 h1
      exact ⟨st.trace.length + 2, _, note_401_refresh_ok env st cid m t h0 h1 ht⟩
    · exact ⟨st.trace.length + 2, _, note_401_refresh_non200 env st cid m h0 h1⟩
  · exact ⟨st.trace.length, _, note_non401 env st cid m h0⟩

/-- Given what the search produced, the dispatch that follows it is fully
characterized: its trace delta consists of the search's own calls followed
by note calls (when the extracted id is truthy) or create calls (when it
is falsy), and nothing else. -/
theorem dispatch_after_search (env : Env) (st st1 : St) (m p s : String)
    (L0 : List Event) (rF : HttpResp)
    (hm : m ≠ "") (hp : p ≠ "") (hs : s ≠ "")
    (hsearch : search_zoho_contact env st (Json.str p) = (searchFinish rF, st1))
    (hL0 : st1.trace = st.trace ++ L0)
    (hK : ∀ e ∈ L0, e.isCreate = false ∧ e.isNote = false) :
    ∃ L, (webhook_core env st (payloadJ m p s)).2.trace = st.trace ++ L ∧
      (∀ cid, searchFinish rF = Except.ok cid → cid.truthy = true →
        (∃ a, Event.notePost cid (mkNoteData cid (Json.str m)) a ∈ L) ∧
        (∀ e ∈ L, e.isCreate = false)) ∧
      (∀ cid, searchFinish rF = Except.ok cid → cid.truthy = false →
        (∃ a, Event.createPost (mkContactData (Json.str s) (Json.str p) (Json.str m)) a ∈ L) ∧
        (∀ e ∈ L, e.isNote = false)) ∧
      (∀ e, searchFinish rF = Except.error e →
        ∀ ev ∈ L, ev.isCreate = false ∧ ev.isNote = false) ∧
      (∀ c bd a, Event.notePost c bd a ∈ L →
        searchFinish rF = Except.ok c ∧ c.truthy = true ∧ bd = mkNoteData c (Json.str m)) ∧
      (∀ bd a, Event.createPost bd a ∈ L →
        bd = mkContactData (Json.str s) (Json.str p) (Json.str m)) := by
  rw [core_valid env st m p s hm hp hs, hsearch]
  cases hsf : searchFinish rF with
  | error e =>
    refine ⟨L0, hL0, ?_, ?_, ?_, ?_, ?_⟩
    · intro cid hcid htr
      exact Except.noConfusion hcid
    · intro cid hcid htr
      exact Except.noConfusion hcid
    · intro e2 he2 ev hev
      exact hK ev hev
    · intro c bd a hmem
      have hz := (hK _ hmem).2
      simp [Event.isNote] at hz
    · intro bd a hmem
      have hz := (hK _ hmem).1
      simp [Event.isCreate] at hz
  | ok cid =>
    by_cases htr : cid.truthy = true
    · obtain ⟨L2, hL2, hall2, hex2⟩ := note_delta env st1 cid (Json.str m)
      rcases hnote : add_message_to_notes env st1 cid (Json.str m) with ⟨res2, st2⟩
      rw [hnote] at hL2
      have hL2b : st2.trace = st1.trace ++ L2 := hL2
      refine ⟨L0 ++ L2, ?_, ?_, ?_, ?_, ?_, ?_⟩
      · simp only [htr, if_true, hnote]
        cases res2 with
        | error e2 =>
          show st2.trace = st.trace ++ (L0 ++ L2)
          rw [hL2b, hL0, List.append_assoc]
        | ok zr =>
          show st2.trace = st.trace ++ (L0 ++ L2)
          rw [hL2b, hL0, List.append_assoc]
      · intro cid2 hcid htr2
        injection hcid with hcc
        subst hcc
        obtain ⟨a0, ha0⟩ := hex2
        refine ⟨⟨a0, List.mem_append.mpr (Or.inr ha0)⟩, ?_⟩
        intro e he
        rcases List.mem_append.mp he with h | h
        · exact (hK e h).1
        · rcases hall2 e h with ⟨a2, rfl⟩ | rfl <;> rfl
      · intro cid2 hcid hfal
        injection hcid with hcc
        subst hcc
        rw [htr] at hfal
        exact Bool.noConfusion hfal
      · intro e2 he2
        exact Except.noConfusion he2
      · intro c bd a hmem
        rcases List.mem_append.mp hmem with h | h
        · have hz := (hK _ h).2
          simp [Event.isNote] at hz
        · rcases hall2 _ h with ⟨a2, h2⟩ | h2
          · injection h2 with hc hb ha
            subst hc
            subst hb
            exact ⟨rfl, htr, rfl⟩
          · exact Event.noConfusion h2
      · intro bd a hmem
        rcases List.mem_append.mp hmem with h | h
        · have hz := (hK _ h).1
          simp [Event.isCreate] at hz
        · rcases hall2 _ h with ⟨a2, h2⟩ | h2
          · exact Event.noConfusion h2
          · exact Event.noConfusion h2
    · have htr2 : cid.truthy = false := by simpa using htr
      obtain ⟨L2, hL2, hall2, hex2⟩ :=
        create_delta env st1 (Json.str s) (Json.str p) (Json.str m)
      rcases hcre : create_zoho_contact env st1 (Json.str s) (Json.str p) (Json.str m)
        with ⟨res2, st2⟩
      rw [hcre] at hL2
      have hL2b : st2.trace = st1.trace ++ L2 := hL2
      refine ⟨L0 ++ L2, ?_, ?_, ?_, ?_, ?_, ?_⟩
      · simp only [htr2, Bool.false_eq_true, if_false, hcre]
        cases res2 with
        | error e2 =>
          show st2.trace = st.trace ++ (L0 ++ L2)
          rw [hL2b, hL0, List.append_assoc]
        | ok zr =>
          show st2.trace = st.trace ++ (L0 ++ L2)
          rw [hL2b, hL0, List.append_assoc]
      · intro cid2 hcid htrt
        injection hcid with hcc
        subst hcc
        rw [htr2] at htrt
        exact Bool.noConfusion htrt
      · intro cid2 hcid hfal
        injection hcid with hcc
        subst hcc
        obtain ⟨a0, ha0⟩ := hex2
        refine ⟨⟨a0, List.mem_append.mpr (Or.inr ha0)⟩, ?_⟩
        intro e he
        rcases List.mem_append.mp he with h | h
        · exact (hK e h).2
        · rcases hall2 e h with ⟨a2, rfl⟩ | rfl <;> rfl
      · intro e2 he2
        exact Except.noConfusion he2
      · intro c bd a hmem
        rcases List.mem_append.mp hmem with h | h
        · have hz := (hK _ h).2
          simp [Event.isNote] at hz
        · rcases hall2 _ h with ⟨a2, h2⟩ | h2
          · exact Event.noConfusion h2
          · exact Event.noConfusion h2
      · intro bd a hmem
        rcases List.mem_append.mp hmem with h | h
        · have hz := (hK _ h).1
          simp [Event.isCreate] at hz
        · rcases hall2 _ h with ⟨a2, h2⟩ | h2
          · exact ((Event.createPost.injEq _ _ _ _).mp h2).1
          · exact Event.noConfusion h2

/-- Master dispatch lemma: validated payload, warm token.  The handler's
trace delta is characterized by what the code extracts from the final
search response. -/
theorem wati_valid_dispatch (env : Env) (st : St) (m p s : String)
    (hm : m ≠ "") (hp : p ≠ "") (hs : s ≠ "") (hw : st.token.truthy = true)
    (hwf : (env.resp st.trace.length).status = 401 →
      (env.resp (st.trace.length + 1)).status = 200 →
      ∃ t, (env.resp (st.trace.length + 1)).body.getItemS "access_token" = Except.ok t) :
    ∃ L, (wati_webhook env st (some (payloadJ m p s))).2.trace = st.trace ++ L ∧
      (∀ cid, searchFinish (searchFinal env st.trace.length) = Except.ok cid →
        cid.truthy = true →
        (∃ a, Event.notePost cid (mkNoteData cid (Json.str m)) a ∈ L) ∧
        (∀ e ∈ L, e.isCreate = false)) ∧
      (∀ cid, searchFinish (searchFinal env st.trace.length) = Except.ok cid →
        cid.truthy = false →
        (∃ a, Event.createPost (mkContactData (Json.str s) (Json.str p) (Json.str m)) a ∈ L) ∧
        (∀ e ∈ L, e.isNote = false)) ∧
      (∀ e, searchFinish (searchFinal env st.trace.length) = Except.error e →
        ∀ ev ∈ L, ev.isCreate = false ∧ ev.isNote = false) ∧
      (∀ c bd a, Event.notePost c bd a ∈ L →
        searchFinish (searchFinal env st.trace.length) = Except.ok c ∧
        c.truthy = true ∧ bd = mkNoteData c (Json.str m)) ∧
      (∀ bd a, Event.createPost bd a ∈ L →
        bd = mkContactData (Json.str s) (Json.str p) (Json.str m)) := by
  rw [wati_warm env st _ hw, bodyOf_some]
  by_cases h0 : (env.resp st.trace.length).status = 401
  · have hF : searchFinal env st.trace.length = env.resp (st.trace.length + 2) := by
      unfold searchFinal
      rw [if_pos h0]
    by_cases h1 : (env.resp (st.trace.length + 1)).status = 200
    · obtain ⟨t, ht⟩ := hwf h0 h1
      refine dispatch_after_search env st
        (St.mk t (st.trace ++ [Event.searchGet (Json.str p) st.token, Event.refreshCall,
          Event.searchGet (Json.str p) t])) m p s
        [Event.searchGet (Json.str p) st.token, Event.refreshCall,
         Event.searchGet (Json.str p) t]
        (searchFinal env st.trace.length) hm hp hs ?_ rfl ?_
      · rw [hF]
        exact search_401_refresh_ok env st p t h0 h1 ht
      · intro e he
        simp only [List.mem_cons, List.not_mem_nil, or_false] at he
        rcases he with rfl | rfl | rfl <;> exact ⟨rfl, rfl⟩
    · refine dispatch_after_search env st
        (St.mk st.token (st.trace ++ [Event.searchGet (Json.str p) st.token, Event.refreshCall,
          Event.searchGet (Json.str p) st.token])) m p s
        [Event.searchGet (Json.str p) st.token, Event.refreshCall,
         Event.searchGet (Json.str p) st.token]
        (searchFinal env st.trace.length) hm hp hs ?_ rfl ?_
      · rw [hF]
        exact search_401_refresh_non200 env st p h0 h1
      · intro e he
        simp only [List.mem_cons, List.not_mem_nil, or_false] at he
        rcases he with rfl | rfl | rfl <;> exact ⟨rfl, rfl⟩
  · have hF : searchFinal env st.trace.length = env.resp st.trace.length := by
      unfold searchFinal
      rw [if_neg h0]
    refine dispatch_after_search env st
      (push st (Event.searchGet (Json.str p) st.token)) m p s
      [Event.searchGet (Json.str p) st.token]
      (searchFinal env st.trace.length) hm hp hs ?_ rfl ?_
    · rw [hF]
      exact search_non401 env st p h0
    · intro e he
      simp only [List.mem_cons, List.not_mem_nil, or_false] at he
      rcases he with rfl
      exact ⟨rfl, rfl⟩

/-- The endpoint body never issues both a create POST and a note POST on
one request, whatever the payload and the upstream responses. -/
theorem core_not_both (env : Env) (st : St) (data : Json) :
    ∃ L, (webhook_core env st data).2.trace = st.trace ++ L ∧
      ((∀ e ∈ L, e.isCreate = false) ∨ (∀ e ∈ L, e.isNote = false)) := by
  by_cases htr : data.truthy = true
  case neg =>
    rw [core_falsy env st data (by simpa using htr)]
    exact ⟨[], by simp, Or.inl (fun e he => absurd he (List.not_mem_nil e))⟩
  case pos =>
    unfold webhook_core
    rw [if_pos htr]
    cases h1 : data.dictGet "text" with
    | error e =>
      exact ⟨[], by simp, Or.inl (fun e he => absurd he (List.not_mem_nil e))⟩
    | ok message =>
    cases h2 : data.dictGet "waId" with
    | error e =>
      exact ⟨[], by simp, Or.inl (fun e he => absurd he (List.not_mem_nil e))⟩
    | ok phoneNumber =>
    cases h3 : data.dictGet "senderName" with
    | error e =>
      exact ⟨[], by simp, Or.inl (fun e he => absurd he (List.not_mem_nil e))⟩
    | ok senderName =>
    simp only []
    by_cases hval : (!phoneNumber.truthy || !message.truthy || !senderName.truthy) = true
    · rw [if_pos hval]
      exact ⟨[], by simp, Or.inl (fun e he => absurd he (List.not_mem_nil e))⟩
    · rw [if_neg hval]
      obtain ⟨L0, hL0, hK0⟩ := search_delta env st phoneNumber
      rcases hsr : search_zoho_contact env st phoneNumber with ⟨res, st1⟩
      rw [hsr] at hL0
      have hL0b : st1.trace = st.trace ++ L0 := hL0
      have hK0b : ∀ e ∈ L0, e.isCreate = false ∧ e.isNote = false := by
        intro e he
        rcases hK0 e he with ⟨a, rfl⟩ | rfl <;> exact ⟨rfl, rfl⟩
      cases res with
      | error e =>
        exact ⟨L0, hL0b, Or.inl (fun e he => (hK0b e he).1)⟩
      | ok cid =>
        by_cases hct : cid.truthy = true
        · obtain ⟨L2, hL2, hall2, hex2⟩ := note_delta env st1 cid message
          rcases hnote : add_message_to_notes env st1 cid message with ⟨res2, st2⟩
          rw [hnote] at hL2
          have hL2b : st2.trace = st1.trace ++ L2 := hL2
          refine ⟨L0 ++ L2, ?_, Or.inl ?_⟩
          · simp only [hct, if_true, hnote]
            cases res2 with
            | error e2 =>
              show st2.trace = st.trace ++ (L0 ++ L2)
              rw [hL2b, hL0b, List.append_assoc]
            | ok zr =>
              show st2.trace = st.trace ++ (L0 ++ L2)
              rw [hL2b, hL0b, List.append_assoc]
          · intro e he
            rcases List.mem_append.mp he with h | h
            · exact (hK0b e h).1
            · rcases hall2 e h with ⟨a2, rfl⟩ | rfl <;> rfl
        · have hct2 : cid.truthy = false := by simpa using hct
          obtain ⟨L2, hL2, hall2, hex2⟩ :=
            create_delta env st1 senderName phoneNumber message
          rcases hcre : create_zoho_contact env st1 senderName phoneNumber message
            with ⟨res2, st2⟩
          rw [hcre] at hL2
          have hL2b : st2.trace = st1.trace ++ L2 := hL2
          refine ⟨L0 ++ L2, ?_, Or.inr ?_⟩
          · simp only [hct2, Bool.false_eq_true, if_false, hcre]
            cases res2 with
            | error e2 =>
              show st2.trace = st.trace ++ (L0 ++ L2)
              rw [hL2b, hL0b, List.append_assoc]
            | ok zr =>
              show st2.trace = st.trace ++ (L0 ++ L2)
              rw [hL2b, hL0b, List.append_assoc]
          · intro e he
            rcases List.mem_append.mp he with h | h
            · exact (hK0b e h).2
            · rcases hall2 e h with ⟨a2, rfl⟩ | rfl <;> rfl

/-- The whole handler never issues both a create POST and a note POST on
one request. -/
theorem wati_not_both (env : Env) (st : St) (b : Option Json) :
    ∃ L, (wati_webhook env st b).2.trace = st.trace ++ L ∧
      ((∀ e ∈ L, e.isCreate = false) ∨ (∀ e ∈ L, e.isNote = false)) := by
  by_cases hw : st.token.truthy = true
  · rw [wati_warm env st b hw]
    exact core_not_both env st (bodyOf b)
  · replace hw : st.token.truthy = false := by simpa using hw
    by_cases h200 : (env.resp st.trace.length).status = 200
    · cases hg : (env.resp st.trace.length).body.getItemS "access_token" with
      | error e =>
        rw [wati_cold_err env st b e hw h200 hg]
        refine ⟨[Event.refreshCall], by simp [push], Or.inl ?_⟩
        intro e he
        rcases (by simpa using he : e = Event.refreshCall) with rfl
        rfl
      | ok t =>
        by_cases htr : t.truthy = true
        · rw [wati_cold_ok env st b t hw h200 hg htr]
          obtain ⟨L2, hL2, hdisj⟩ :=
            core_not_both env (St.mk t (st.trace ++ [Event.refreshCall])) (bodyOf b)
          refine ⟨Event.refreshCall :: L2, ?_, ?_⟩
          · rw [hL2]
            simp
          · rcases hdisj with hL | hL
            · refine Or.inl ?_
              intro e he
              rcases List.mem_cons.mp he with rfl | h
              · rfl
              · exact hL e h
            · refine Or.inr ?_
              intro e he
              rcases List.mem_cons.mp he with rfl | h
              · rfl
              · exact hL e h
        · rw [wati_cold_falsy env st b t hw h200 hg (by simpa using htr)]
          refine ⟨[Event.refreshCall], rfl, Or.inl ?_⟩
          intro e he
          rcases (by simpa using he : e = Event.refreshCall) with rfl
          rfl
    · rw [wati_cold_fail env st b hw h200]
      refine ⟨[Event.refreshCall], rfl, Or.inl ?_⟩
      intro e he
      rcases (by simpa using he : e = Event.refreshCall) with rfl
      rfl

/-! ### The claims -/

/-- C6 (confirmed): on every refresh attempt whose OAuth response status
is not 200, the refresh returns no token (`None`) and leaves the stored
credential value unchanged; and the stored credential is replaced only on
an HTTP 200 refresh response. -/
theorem c6_refresh_failure :
    (∀ (env : Env) (st : St), (env.resp st.trace.length).status ≠ 200 →
      refresh_access_token env st =
        (Except.ok Json.null, St.mk st.token (st.trace ++ [Event.refreshCall]))) ∧
    (∀ (env : Env) (st : St), (refresh_access_token env st).2.token ≠ st.token →
      (env.resp st.trace.length).status = 200) := by
  constructor
  · intro env st h
    exact refresh_non200 env st h
  · intro env st h
    exact refresh_token_change env st h

theorem c6_refresh_failure_witness :
    refresh_access_token envC6 (St.mk (Json.str "old") []) =
      (Except.ok Json.null, St.mk (Json.str "old") [Event.refreshCall]) ∧
    (envC6b.resp 0).status = 200 := by
  constructor
  · exact c6_refresh_failure.1 envC6 (St.mk (Json.str "old") []) (by decide)
  · refine c6_refresh_failure.2 envC6b (St.mk (Json.str "old") []) ?_
    intro h
    have h2 : Json.str "newtok" = Json.str "old" := h
    exact absurd ((Json.str.injEq _ _).mp h2) (by decide)

/-- C9 (confirmed): in the 401-retry path of each outbound CRM call the
retry is issued even when the intervening refresh fails (non-200): the
authorization is rebuilt from the unchanged stored credential, so the
reissued request carries exactly the credential that just received the
401, and the stored token is unchanged afterwards. -/
theorem c9_retry_unconditional :
    (∀ (env : Env) (st : St) (p : String),
      (env.resp st.trace.length).status = 401 →
      (env.resp (st.trace.length + 1)).status ≠ 200 →
      search_zoho_contact env st (Json.str p) =
        (searchFinish (env.resp (st.trace.length + 2)),
         St.mk st.token (st.trace ++
           [Event.searchGet (Json.str p) st.token, Event.refreshCall,
            Event.searchGet (Json.str p) st.token]))) ∧
    (∀ (env : Env) (st : St) (n p d : Json),
      (env.resp st.trace.length).status = 401 →
      (env.resp (st.trace.length + 1)).status ≠ 200 →
      create_zoho_contact env st n p d =
        (Except.ok (env.resp (st.trace.length + 2)).body,
         St.mk st.token (st.trace ++
           [Event.createPost (mkContactData n p d) st.token, Event.refreshCall,
            Event.createPost (mkContactData n p d) st.token]))) ∧
    (∀ (env : Env) (st : St) (cid m : Json),
      (env.resp st.trace.length).status = 401 →
      (env.resp (st.trace.length + 1)).status ≠ 200 →
      add_message_to_notes env st cid m =
        (Except.ok (env.resp (st.trace.length + 2)).body,
         St.mk st.token (st.trace ++
           [Event.notePost cid (mkNoteData cid m) st.token, Event.refreshCall,
            Event.notePost cid (mkNoteData cid m) st.token]))) :=
  ⟨search_401_refresh_non200, create_401_refresh_non200, note_401_refresh_non200⟩

theorem c9_retry_unconditional_witness :
    search_zoho_contact envC9 (St.mk (Json.str "T") []) (Json.str "911") =
      (searchFinish (envC9.resp 2),
       St.mk (Json.str "T")
         [Event.searchGet (Json.str "911") (Json.str "T"), Event.refreshCall,
          Event.searchGet (Json.str "911") (Json.str "T")]) ∧
    create_zoho_contact envC9 (St.mk (Json.str "T") [])
        (Json.str "A") (Json.str "9") (Json.str "h") =
      (Except.ok (envC9.resp 2).body,
       St.mk (Json.str "T")
         [Event.createPost (mkContactData (Json.str "A") (Json.str "9") (Json.str "h"))
            (Json.str "T"),
          Event.refreshCall,
          Event.createPost (mkContactData (Json.str "A") (Json.str "9") (Json.str "h"))
            (Json.str "T")]) ∧
    add_message_to_notes envC9 (St.mk (Json.str "T") []) (Json.str "zc") (Json.str "h") =
      (Except.ok (envC9.resp 2).body,
       St.mk (Json.str "T")
         [Event.notePost (Json.str "zc") (mkNoteData (Json.str "zc") (Json.str "h"))
            (Json.str "T"),
          Event.refreshCall,
          Event.notePost (Json.str "zc") (mkNoteData (Json.str "zc") (Json.str "h"))
            (Json.str "T")]) := by
  refine ⟨?_, ?_, ?_⟩
  · exact c9_retry_unconditional.1 envC9 (St.mk (Json.str "T") []) "911"
      (by decide) (by decide)
  · exact c9_retry_unconditional.2.1 envC9 (St.mk (Json.str "T") []) _ _ _
      (by decide) (by decide)
  · exact c9_retry_unconditional.2.2 envC9 (St.mk (Json.str "T") []) _ _
      (by decide) (by decide)

/-- C8 (confirmed): every note record posted by the note call is tied to
exactly the given contact id, carries the fixed title "WhatsApp Message"
and content equal to the inbound message; concretely, for message "Hello"
and resolved contact "zc_42" the note request references zc_42 with
content "Hello" and the handler answers 200 with the note response
embedded. -/
theorem c8_note_shape :
    (∀ (env : Env) (st : St) (cid m : Json),
      ∃ L, (add_message_to_notes env st cid m).2.trace = st.trace ++ L ∧
        (∃ a, Event.notePost cid (Json.obj [("data", Json.arr [Json.obj
          [("Parent_Id", cid), ("Note_Title", Json.str "WhatsApp Message"),
           ("Note_Content", m)]])]) a ∈ L) ∧
        (∀ e ∈ L, e = Event.refreshCall ∨ ∃ a, e = Event.notePost cid
          (Json.obj [("data", Json.arr [Json.obj
            [("Parent_Id", cid), ("Note_Title", Json.str "WhatsApp Message"),
             ("Note_Content", m)]])]) a)) ∧
    wati_webhook envC8 (St.mk (Json.str "tok") [])
        (some (payloadJ "Hello" "911234567890" "Asha")) =
      (Except.ok (successEnvelope (Json.obj [("status", Json.str "ok")]), 200),
       St.mk (Json.str "tok")
         [Event.searchGet (Json.str "911234567890") (Json.str "tok"),
          Event.notePost (Json.str "zc_42")
            (Json.obj [("data", Json.arr [Json.obj
              [("Parent_Id", Json.str "zc_42"),
               ("Note_Title", Json.str "WhatsApp Message"),
               ("Note_Content", Json.str "Hello")]])])
            (Json.str "tok")]) := by
  constructor
  · intro env st cid m
    obtain ⟨L, hL, hall, hex⟩ := note_delta env st cid m
    exact ⟨L, hL, hex, fun e he => (hall e he).symm⟩
  · rfl

theorem c8_note_shape_witness :
    ∃ L, (add_message_to_notes envC8 (St.mk (Json.str "tok") [])
        (Json.str "zc_42") (Json.str "Hello")).2.trace =
          (St.mk (Json.str "tok") []).trace ++ L ∧
      (∃ a, Event.notePost (Json.str "zc_42") (Json.obj [("data", Json.arr [Json.obj
        [("Parent_Id", Json.str "zc_42"), ("Note_Title", Json.str "WhatsApp Message"),
         ("Note_Content", Json.str "Hello")]])]) a ∈ L) ∧
      (∀ e ∈ L, e = Event.refreshCall ∨ ∃ a, e = Event.notePost (Json.str "zc_42")
        (Json.obj [("data", Json.arr [Json.obj
          [("Parent_Id", Json.str "zc_42"), ("Note_Title", Json.str "WhatsApp Message"),
           ("Note_Content", Json.str "Hello")]])]) a) :=
  c8_note_shape.1 envC8 (St.mk (Json.str "tok") []) (Json.str "zc_42") (Json.str "Hello")

/-- C1 as stated is false: for the search call, with the first response
401 and a refresh response of status 200 whose body lacks `access_token`,
a KeyError is raised and the request is never reissued — the trace holds
exactly one search GET, not two. -/
theorem c1_counterexample :
    search_zoho_contact envC1 (St.mk Json.null []) (Json.str "911234567890") =
      (Except.error PyErr.keyError,
       St.mk Json.null [Event.searchGet (Json.str "911234567890") Json.null,
         Event.refreshCall]) ∧
    ((search_zoho_contact envC1 (St.mk Json.null [])
        (Json.str "911234567890")).2.trace.filter Event.isSearch).length = 1 :=
  ⟨rfl, rfl⟩

/-- C1 (amended): for each outbound CRM call, if the first response is
401 and the refresh response, when 200, carries an `access_token`, then
exactly one refresh happens and the identical request is reissued exactly
once with the authorization rebuilt from the (possibly updated) stored
credential; when the second response is again 401 it is the final result:
create/note return its body unchanged and search reports no contact
(`None`), with no second refresh, no second retry, and no error. -/
theorem c1_retry_protocol :
    (∀ (env : Env) (st : St) (p : String),
      (env.resp st.trace.length).status = 401 →
      ((env.resp (st.trace.length + 1)).status = 200 →
        ∃ t, (env.resp (st.trace.length + 1)).body.getItemS "access_token" = Except.ok t) →
      (env.resp (st.trace.length + 2)).status = 401 →
      ∃ tok1, search_zoho_contact env st (Json.str p) =
        (Except.ok Json.null,
         St.mk tok1 (st.trace ++
           [Event.searchGet (Json.str p) st.token, Event.refreshCall,
            Event.searchGet (Json.str p) tok1]))) ∧
    (∀ (env : Env) (st : St) (n p d : Json),
      (env.resp st.trace.length).status = 401 →
      ((env.resp (st.trace.length + 1)).status = 200 →
        ∃ t, (env.resp (st.trace.length + 1)).body.getItemS "access_token" = Except.ok t) →
      (env.resp (st.trace.length + 2)).status = 401 →
      ∃ tok1, create_zoho_contact env st n p d =
        (Except.ok (env.resp (st.trace.length + 2)).body,
         St.mk tok1 (st.trace ++
           [Event.createPost (mkContactData n p d) st.token, Event.refreshCall,
            Event.createPost (mkContactData n p d) tok1]))) ∧
    (∀ (env : Env) (st : St) (cid m : Json),
      (env.resp st.trace.length).status = 401 →
      ((env.resp (st.trace.length + 1)).status = 200 →
        ∃ t, (env.resp (st.trace.length + 1)).body.getItemS "access_token" = Except.ok t) →
      (env.resp (st.trace.length + 2)).status = 401 →
      ∃ tok1, add_message_to_notes env st cid m =
        (Except.ok (env.resp (st.trace.length + 2)).body,
         St.mk tok1 (st.trace ++
           [Event.notePost cid (mkNoteData cid m) st.token, Event.refreshCall,
            Event.notePost cid (mkNoteData cid m) tok1]))) := by
  refine ⟨?_, ?_, ?_⟩
  · intro env st p h0 hwf h2
    by_cases h1 : (env.resp (st.trace.length + 1)).status = 200
    · obtain ⟨t, ht⟩ := hwf h1
      refine ⟨t, ?_⟩
      rw [search_401_refresh_ok env st p t h0 h1 ht,
        searchFinish_non200 _ (by simp [h2])]
    · refine ⟨st.token, ?_⟩
      rw [search_401_refresh_non200 env st p h0 h1,
        searchFinish_non200 _ (by simp [h2])]
  · intro env st n p d h0 hwf h2
    by_cases h1 : (env.resp (st.trace.length + 1)).status = 200
    · obtain ⟨t, ht⟩ := hwf h1
      exact ⟨t, create_401_refresh_ok env st n p d t h0 h1 ht⟩
    · exact ⟨st.token, create_401_refresh_non200 env st n p d h0 h1⟩
  · intro env st cid m h0 hwf h2
    by_cases h1 : (env.resp (st.trace.length + 1)).status = 200
    · obtain ⟨t, ht⟩ := hwf h1
      exact ⟨t, note_401_refresh_ok env st cid m t h0 h1 ht⟩
    · exact ⟨st.token, note_401_refresh_non200 env st cid m h0 h1⟩

theorem c1_retry_protocol_witness :
    (∃ tok1, search_zoho_contact envC1w (St.mk (Json.str "T") []) (Json.str "911") =
      (Except.ok Json.null,
       St.mk tok1 [Event.searchGet (Json.str "911") (Json.str "T"), Event.refreshCall,
         Event.searchGet (Json.str "911") tok1])) ∧
    (∃ tok1, create_zoho_contact envC1w (St.mk (Json.str "T") [])
        (Json.str "A") (Json.str "9") (Json.str "h") =
      (Except.ok (envC1w.resp 2).body,
       St.mk tok1 [Event.createPost (mkContactData (Json.str "A") (Json.str "9")
           (Json.str "h")) (Json.str "T"),
         Event.refreshCall,
         Event.createPost (mkContactData (Json.str "A") (Json.str "9") (Json.str "h")) tok1])) ∧
    (∃ tok1, add_message_to_notes envC1w (St.mk (Json.str "T") [])
        (Json.str "zc") (Json.str "h") =
      (Except.ok (envC1w.resp 2).body,
       St.mk tok1 [Event.notePost (Json.str "zc")
           (mkNoteData (Json.str "zc") (Json.str "h")) (Json.str "T"),
         Event.refreshCall,
         Event.notePost (Json.str "zc") (mkNoteData (Json.str "zc") (Json.str "h")) tok1])) := by
  refine ⟨?_, ?_, ?_⟩
  · exact c1_retry_protocol.1 envC1w (St.mk (Json.str "T") []) "911"
      (by decide) (fun h1 => absurd h1 (by decide)) (by decide)
  · exact c1_retry_protocol.2.1 envC1w (St.mk (Json.str "T") []) _ _ _
      (by decide) (fun h1 => absurd h1 (by decide)) (by decide)
  · exact c1_retry_protocol.2.2 envC1w (St.mk (Json.str "T") []) _ _
      (by decide) (fun h1 => absurd h1 (by decide)) (by decide)

/-- C3 as stated is false: for an empty-body request arriving while no
credential is stored, the handler performs a refresh call of its own
before the body check, and only then answers 400. -/
theorem c3_counterexample :
    wati_webhook envC3 (St.mk Json.null []) none =
      (Except.ok (errJson "No data received", 400),
       St.mk (Json.str "T") [Event.refreshCall]) ∧
    ((wati_webhook envC3 (St.mk Json.null []) none).2.trace.filter
      Event.isRefresh).length = 1 :=
  ⟨rfl, rfl⟩

/-- C3 (amended): an empty or absent JSON body always yields the 400
"No data received" response with no CRM search/create/note call; but the
credential check precedes the body check, so when the stored credential is
falsy the request first performs one refresh call of its own (and is
answered 401 instead when that refresh fails). -/
theorem c3_empty_body :
    ∀ (env : Env) (st : St) (b : Option Json), (bodyOf b).truthy = false →
    (st.token.truthy = true →
      wati_webhook env st b = (Except.ok (errJson "No data received", 400), st)) ∧
    (st.token.truthy = false → (env.resp st.trace.length).status ≠ 200 →
      wati_webhook env st b =
        (Except.ok (errJson "Failed to authenticate with Zoho", 401),
         St.mk Json.null (st.trace ++ [Event.refreshCall]))) ∧
    (st.token.truthy = false → ∀ t, (env.resp st.trace.length).status = 200 →
      (env.resp st.trace.length).body.getItemS "access_token" = Except.ok t →
      t.truthy = true →
      wati_webhook env st b =
        (Except.ok (errJson "No data received", 400),
         St.mk t (st.trace ++ [Event.refreshCall]))) := by
  intro env st b hb
  refine ⟨?_, ?_, ?_⟩
  · intro hw
    rw [wati_warm env st b hw, core_falsy env st _ hb]
  · intro hc hs2
    exact wati_cold_fail env st b hc hs2
  · intro hc t h200 ht htr
    rw [wati_cold_ok env st b t hc h200 ht htr, core_falsy env _ _ hb]

theorem c3_empty_body_witness :
    wati_webhook envC3 (St.mk (Json.str "W") []) none =
      (Except.ok (errJson "No data received", 400), St.mk (Json.str "W") []) ∧
    wati_webhook envC6 (St.mk Json.null []) none =
      (Except.ok (errJson "Failed to authenticate with Zoho", 401),
       St.mk Json.null [Event.refreshCall]) := by
  constructor
  · exact (c3_empty_body envC3 (St.mk (Json.str "W") []) none (by decide)).1 (by decide)
  · exact (c3_empty_body envC6 (St.mk Json.null []) none (by decide)).2.1
      (by decide) (by decide)

/-- C5 as stated is false: a payload missing `waId` and `senderName`,
sent while no credential is stored and the refresh fails, is answered
401, not 400 — the credential check runs before field validation. -/
theorem c5_counterexample :
    wati_webhook envC5 (St.mk Json.null [])
        (some (Json.obj [("text", Json.str "hi")])) =
      (Except.ok (errJson "Failed to authenticate with Zoho", 401),
       St.mk Json.null [Event.refreshCall]) :=
  rfl

/-- C5 (amended): for every object payload with `text`, `waId` or
`senderName` absent, the handler performs zero CRM calls (no search, no
create, no note) — at most a credential refresh; it answers 400 when a
truthy credential is stored or freshly obtained, and 401 instead when the
credential is absent and not obtainable. -/
theorem c5_missing_fields :
    ∀ (env : Env) (st : St) (kvs : List (String × Json)),
    (kvs.lookup "text" = none ∨ kvs.lookup "waId" = none ∨
      kvs.lookup "senderName" = none) →
    (∃ L, (wati_webhook env st (some (Json.obj kvs))).2.trace = st.trace ++ L ∧
      ∀ e ∈ L, e = Event.refreshCall) ∧
    (st.token.truthy = true → ∃ msg,
      wati_webhook env st (some (Json.obj kvs)) =
        (Except.ok (errJson msg, 400), st)) ∧
    (st.token.truthy = false → ∀ t, (env.resp st.trace.length).status = 200 →
      (env.resp st.trace.length).body.getItemS "access_token" = Except.ok t →
      t.truthy = true → ∃ msg,
      wati_webhook env st (some (Json.obj kvs)) =
        (Except.ok (errJson msg, 400), St.mk t (st.trace ++ [Event.refreshCall]))) ∧
    (st.token.truthy = false → (env.resp st.trace.length).status ≠ 200 →
      wati_webhook env st (some (Json.obj kvs)) =
        (Except.ok (errJson "Failed to authenticate with Zoho", 401),
         St.mk Json.null (st.trace ++ [Event.refreshCall]))) := by
  intro env st kvs hmiss
  have hfal : (pyGet kvs "waId").truthy = false ∨ (pyGet kvs "text").truthy = false
      ∨ (pyGet kvs "senderName").truthy = false := by
    rcases hmiss with h | h | h
    · exact Or.inr (Or.inl (by unfold pyGet; rw [h]; rfl))
    · exact Or.inl (by unfold pyGet; rw [h]; rfl)
    · exact Or.inr (Or.inr (by unfold pyGet; rw [h]; rfl))
  refine ⟨?_, ?_, ?_, ?_⟩
  · refine wati_delta_refresh_only env st _ ?_
    intro st1
    obtain ⟨msg, hmsg⟩ := core_obj_400 env st1 kvs hfal
    rw [bodyOf_some, hmsg]
  · intro hw
    obtain ⟨msg, hmsg⟩ := core_obj_400 env st kvs hfal
    exact ⟨msg, by rw [wati_warm env st _ hw, bodyOf_some, hmsg]⟩
  · intro hc t h200 ht htr
    obtain ⟨msg, hmsg⟩ :=
      core_obj_400 env (St.mk t (st.trace ++ [Event.refreshCall])) kvs hfal
    exact ⟨msg, by rw [wati_cold_ok env st _ t hc h200 ht htr, bodyOf_some, hmsg]⟩
  · intro hc hs2
    exact wati_cold_fail env st _ hc hs2

theorem c5_missing_fields_witness :
    ∃ msg, wati_webhook envC3 (St.mk (Json.str "W") [])
        (some (Json.obj [("text", Json.str "hi")])) =
      (Except.ok (errJson msg, 400), St.mk (Json.str "W") []) :=
  (c5_missing_fields envC3 (St.mk (Json.str "W") []) [("text", Json.str "hi")]
    (Or.inr (Or.inl rfl))).2.1 (by decide)

/-- C10 as stated is false: a payload whose `text` is present but bound
to the empty string, sent while no credential is stored and the refresh
fails, is answered 401, not 400. -/
theorem c10_counterexample :
    wati_webhook envC10 (St.mk Json.null [])
        (some (Json.obj [("text", Json.str ""), ("waId", Json.str "911234567890"),
          ("senderName", Json.str "Asha")])) =
      (Except.ok (errJson "Failed to authenticate with Zoho", 401),
       St.mk Json.null [Event.refreshCall]) :=
  rfl

/-- C10 (amended): for every object payload in which `text`, `waId` or
`senderName` is present but bound to a falsy value (empty string, null,
0, false, empty list/object), the handler treats it as missing — field
validation is a truthiness check, not a key-presence check — and performs
zero CRM calls; it answers the 400 missing-fields error when a truthy
credential is stored or freshly obtained, and 401 instead when the
credential is absent and not obtainable. -/
theorem c10_falsy_fields :
    ∀ (env : Env) (st : St) (kvs : List (String × Json)),
    ((∃ v, kvs.lookup "text" = some v ∧ v.truthy = false) ∨
     (∃ v, kvs.lookup "waId" = some v ∧ v.truthy = false) ∨
     (∃ v, kvs.lookup "senderName" = some v ∧ v.truthy = false)) →
    (∃ L, (wati_webhook env st (some (Json.obj kvs))).2.trace = st.trace ++ L ∧
      ∀ e ∈ L, e = Event.refreshCall) ∧
    (st.token.truthy = true →
      wati_webhook env st (some (Json.obj kvs)) =
        (Except.ok (errJson "Missing phone number, message, or sender name", 400), st)) ∧
    (st.token.truthy = false → ∀ t, (env.resp st.trace.length).status = 200 →
      (env.resp st.trace.length).body.getItemS "access_token" = Except.ok t →
      t.truthy = true →
      wati_webhook env st (some (Json.obj kvs)) =
        (Except.ok (errJson "Missing phone number, message, or sender name", 400),
         St.mk t (st.trace ++ [Event.refreshCall]))) ∧
    (st.token.truthy = false → (env.resp st.trace.length).status ≠ 200 →
      wati_webhook env st (some (Json.obj kvs)) =
        (Except.ok (errJson "Failed to authenticate with Zoho", 401),
         St.mk Json.null (st.trace ++ [Event.refreshCall]))) := by
  intro env st kvs hfalsy
  have hfal : (pyGet kvs "waId").truthy = false ∨ (pyGet kvs "text").truthy = false
      ∨ (pyGet kvs "senderName").truthy = false := by
    rcases hfalsy with ⟨v, hl, hv⟩ | ⟨v, hl, hv⟩ | ⟨v, hl, hv⟩
    · exact Or.inr (Or.inl (by unfold pyGet; rw [hl]; exact hv))
    · exact Or.inl (by unfold pyGet; rw [hl]; exact hv)
    · exact Or.inr (Or.inr (by unfold pyGet; rw [hl]; exact hv))
  have htr : (Json.obj kvs).truthy = true := by
    rcases hfalsy with ⟨v, hl, hv⟩ | ⟨v, hl, hv⟩ | ⟨v, hl, hv⟩ <;>
      exact truthy_of_lookup_some kvs _ v hl
  refine ⟨?_, ?_, ?_, ?_⟩
  · refine wati_delta_refresh_only env st _ ?_
    intro st1
    rw [bodyOf_some, core_obj_missing env st1 kvs hfal htr]
  · intro hw
    rw [wati_warm env st _ hw, bodyOf_some, core_obj_missing env st kvs hfal htr]
  · intro hc t h200 ht httr
    rw [wati_cold_ok env st _ t hc h200 ht httr, bodyOf_some,
      core_obj_missing env _ kvs hfal htr]
  · intro hc hs2
    exact wati_cold_fail env st _ hc hs2

theorem c10_falsy_fields_witness :
    wati_webhook envC3 (St.mk (Json.str "W") [])
        (some (Json.obj [("text", Json.str ""), ("waId", Json.str "911234567890"),
          ("senderName", Json.str "Asha")])) =
      (Except.ok (errJson "Missing phone number, message, or sender name", 400),
       St.mk (Json.str "W") []) :=
  (c10_falsy_fields envC3 (St.mk (Json.str "W") [])
    [("text", Json.str ""), ("waId", Json.str "911234567890"),
     ("senderName", Json.str "Asha")]
    (Or.inl ⟨Json.str "", rfl, rfl⟩)).2.1 (by decide)

/-- C2 as stated is false: the search's final response has status 200 and
the non-empty data list `[{"id": ""}]`, yet the falsy id makes the
handler call contact-creation and not note-attachment. -/
theorem c2_counterexample :
    (envC2.resp 0).status = 200 ∧
    (envC2.resp 0).body =
      Json.obj [("data", Json.arr [Json.obj [("id", Json.str "")]])] ∧
    wati_webhook envC2 (St.mk (Json.str "tok") [])
        (some (payloadJ "Hello" "911234567890" "Asha")) =
      (Except.ok (successEnvelope (Json.obj []), 200),
       St.mk (Json.str "tok")
         [Event.searchGet (Json.str "911234567890") (Json.str "tok"),
          Event.createPost (mkContactData (Json.str "Asha") (Json.str "911234567890")
            (Json.str "Hello")) (Json.str "tok")]) :=
  ⟨rfl, rfl, rfl⟩

/-- C2 (amended): on a validated request (string-valued fields, credential
already present), the dispatch is decided by the id the code extracts from
the final search response, not merely by the non-emptiness of the data
list: a truthy extracted id leads to the note call for that id and no
create call; an extraction yielding `None` or a falsy id (empty list,
missing data field, non-200 final status, or a falsy id value) leads to
the create call with sender name, phone and message-as-description and no
note call; and if the 200 body is malformed the extraction raises and
neither call is made.  (Proviso: when the first search response is 401 the
refresh response is assumed to carry an access token when it is a 200.) -/
theorem c2_dispatch :
    ∀ (env : Env) (st : St) (m p s : String),
    m ≠ "" → p ≠ "" → s ≠ "" → st.token.truthy = true →
    ((env.resp st.trace.length).status = 401 →
      (env.resp (st.trace.length + 1)).status = 200 →
      ∃ t, (env.resp (st.trace.length + 1)).body.getItemS "access_token" = Except.ok t) →
    ∃ L, (wati_webhook env st (some (payloadJ m p s))).2.trace = st.trace ++ L ∧
      (∀ cid, searchFinish (searchFinal env st.trace.length) = Except.ok cid →
        cid.truthy = true →
        (∃ a, Event.notePost cid (mkNoteData cid (Json.str m)) a ∈ L) ∧
        (∀ e ∈ L, e.isCreate = false)) ∧
      (∀ cid, searchFinish (searchFinal env st.trace.length) = Except.ok cid →
        cid.truthy = false →
        (∃ a, Event.createPost (mkContactData (Json.str s) (Json.str p) (Json.str m)) a ∈ L) ∧
        (∀ e ∈ L, e.isNote = false)) ∧
      (∀ e, searchFinish (searchFinal env st.trace.length) = Except.error e →
        ∀ ev ∈ L, ev.isCreate = false ∧ ev.isNote = false) := by
  intro env st m p s hm hp hs hw hwf
  obtain ⟨L, hL, k1, k2, k3, _, _⟩ := wati_valid_dispatch env st m p s hm hp hs hw hwf
  exact ⟨L, hL, k1, k2, k3⟩

theorem c2_dispatch_witness :
    ∃ L, (wati_webhook envC8 (St.mk (Json.str "tok") [])
        (some (payloadJ "Hello" "911234567890" "Asha"))).2.trace =
      (St.mk (Json.str "tok") []).trace ++ L ∧
      (∀ cid, searchFinish (searchFinal envC8 0) = Except.ok cid → cid.truthy = true →
        (∃ a, Event.notePost cid (mkNoteData cid (Json.str "Hello")) a ∈ L) ∧
        (∀ e ∈ L, e.isCreate = false)) ∧
      (∀ cid, searchFinish (searchFinal envC8 0) = Except.ok cid → cid.truthy = false →
        (∃ a, Event.createPost (mkContactData (Json.str "Asha") (Json.str "911234567890")
          (Json.str "Hello")) a ∈ L) ∧
        (∀ e ∈ L, e.isNote = false)) ∧
      (∀ e, searchFinish (searchFinal envC8 0) = Except.error e →
        ∀ ev ∈ L, ev.isCreate = false ∧ ev.isNote = false) :=
  c2_dispatch envC8 (St.mk (Json.str "tok") []) "Hello" "911234567890" "Asha"
    (by decide) (by decide) (by decide) (by decide)
    (fun h0 => absurd h0 (by decide))

/-- C7 (confirmed): (i) on any single webhook request, at most one of
contact-creation and note-attachment is exercised — the trace delta never
holds both a create POST and a note POST; (ii) on a validated request with
a warm credential, every note POST in the delta carries exactly the
(truthy) contact id that the phone-number search extracted from its final
response — i.e. a contact that already existed per the search — and every
create POST carries the message as the Description of the brand-new
contact. -/
theorem c7_exclusive_dispatch :
    (∀ (env : Env) (st : St) (b : Option Json),
      ∃ L, (wati_webhook env st b).2.trace = st.trace ++ L ∧
        ((∀ e ∈ L, e.isCreate = false) ∨ (∀ e ∈ L, e.isNote = false))) ∧
    (∀ (env : Env) (st : St) (m p s : String),
      m ≠ "" → p ≠ "" → s ≠ "" → st.token.truthy = true →
      ((env.resp st.trace.length).status = 401 →
        (env.resp (st.trace.length + 1)).status = 200 →
        ∃ t, (env.resp (st.trace.length + 1)).body.getItemS "access_token" = Except.ok t) →
      ∃ L, (wati_webhook env st (some (payloadJ m p s))).2.trace = st.trace ++ L ∧
        (∀ c bd a, Event.notePost c bd a ∈ L →
          searchFinish (searchFinal env st.trace.length) = Except.ok c ∧
          c.truthy = true ∧ bd = mkNoteData c (Json.str m)) ∧
        (∀ bd a, Event.createPost bd a ∈ L →
          bd = mkContactData (Json.str s) (Json.str p) (Json.str m))) := by
  constructor
  · exact wati_not_both
  · intro env st m p s hm hp hs hw hwf
    obtain ⟨L, hL, _, _, _, k4, k5⟩ := wati_valid_dispatch env st m p s hm hp hs hw hwf
    exact ⟨L, hL, k4, k5⟩

theorem c7_exclusive_dispatch_witness :
    (∃ L, (wati_webhook envC7w (St.mk Json.null []) none).2.trace =
        (St.mk Json.null []).trace ++ L ∧
      ((∀ e ∈ L, e.isCreate = false) ∨ (∀ e ∈ L, e.isNote = false))) ∧
    (∃ L, (wati_webhook envC7w (St.mk (Json.str "tok") [])
        (some (payloadJ "Hello" "911234567890" "Asha"))).2.trace =
        (St.mk (Json.str "tok") []).trace ++ L ∧
      (∀ c bd a, Event.notePost c bd a ∈ L →
        searchFinish (searchFinal envC7w 0) = Except.ok c ∧
        c.truthy = true ∧ bd = mkNoteData c (Json.str "Hello")) ∧
      (∀ bd a, Event.createPost bd a ∈ L →
        bd = mkContactData (Json.str "Asha") (Json.str "911234567890") (Json.str "Hello"))) :=
  ⟨c7_exclusive_dispatch.1 envC7w (St.mk Json.null []) none,
   c7_exclusive_dispatch.2 envC7w (St.mk (Json.str "tok") []) "Hello" "911234567890" "Asha"
     (by decide) (by decide) (by decide) (by decide)
     (fun h0 => absurd h0 (by decide))⟩

/-- A validated payload under well-formed responses always ends in the 200
success envelope wrapping some upstream response body. -/
theorem core_valid_wf (env : Env) (hwf : EnvWF env) (st : St) (m p s : String)
    (hm : m ≠ "") (hp : p ≠ "") (hs : s ≠ "") :
    ∃ zr st1, webhook_core env st (payloadJ m p s) =
      (Except.ok (successEnvelope zr, 200), st1) ∧ ∃ j, zr = (env.resp j).body := by
  obtain ⟨cid, st1, hsearch⟩ := search_ok env hwf st p
  rw [core_valid env st m p s hm hp hs, hsearch]
  by_cases htr : cid.truthy = true
  · obtain ⟨j, st2, hnote⟩ := note_ok env hwf st1 cid (Json.str m)
    refine ⟨(env.resp j).body, st2, ?_, ⟨j, rfl⟩⟩
    simp only [htr, if_true, hnote]
  · have htr2 : cid.truthy = false := by simpa using htr
    obtain ⟨j, st2, hcre⟩ := create_ok env hwf st1 (Json.str s) (Json.str p) (Json.str m)
    refine ⟨(env.resp j).body, st2, ?_, ⟨j, rfl⟩⟩
    simp only [htr2, Bool.false_eq_true, if_false, hcre]

/-- C4 as stated is false: a fully validated request whose search obtains
a 200 response with the malformed body `{"data": [{}]}` raises a KeyError
(so the handler does not answer 200 with a success envelope). -/
theorem c4_counterexample :
    wati_webhook envC4 (St.mk (Json.str "tok") [])
        (some (payloadJ "Hello" "911234567890" "Asha")) =
      (Except.error PyErr.keyError,
       St.mk (Json.str "tok")
         [Event.searchGet (Json.str "911234567890") (Json.str "tok")]) :=
  rfl

/-- C4 (amended): for every validated request (string fields, credential
stored or freshly obtainable) whose upstream responses are well formed —
every 200 body yields both extractions without raising — the handler
answers HTTP 200 with the success message plus the raw body of an
upstream CRM response, regardless of the downstream status codes;
downstream non-2xx results (including after the single retry) never
change the handler's status and never raise.  The well-formedness proviso
is needed: a malformed 200 search body raises instead (see the
counterexample). -/
theorem c4_success_envelope :
    ∀ (env : Env) (st : St) (m p s : String),
    m ≠ "" → p ≠ "" → s ≠ "" → EnvWF env →
    (st.token.truthy = true ∨
      (st.token.truthy = false ∧ (env.resp st.trace.length).status = 200 ∧
        ∃ t, (env.resp st.trace.length).body.getItemS "access_token" = Except.ok t ∧
          t.truthy = true)) →
    ∃ zr st1, wati_webhook env st (some (payloadJ m p s)) =
      (Except.ok (successEnvelope zr, 200), st1) ∧ ∃ j, zr = (env.resp j).body := by
  intro env st m p s hm hp hs hwf hauth
  rcases hauth with hw | ⟨hc, h200, t, ht, htr⟩
  · rw [wati_warm env st _ hw, bodyOf_some]
    exact core_valid_wf env hwf st m p s hm hp hs
  · rw [wati_cold_ok env st _ t hc h200 ht htr, bodyOf_some]
    exact core_valid_wf env hwf (St.mk t (st.trace ++ [Event.refreshCall])) m p s hm hp hs

theorem c4_success_envelope_witness :
    ∃ zr st1, wati_webhook envC4w (St.mk (Json.str "T") [])
        (some (payloadJ "Hello" "911234567890" "Asha")) =
      (Except.ok (successEnvelope zr, 200), st1) ∧ ∃ j, zr = (envC4w.resp j).body :=
  c4_success_envelope envC4w (St.mk (Json.str "T") []) "Hello" "911234567890" "Asha"
    (by decide) (by decide) (by decide)
    (fun i => ⟨fun h => absurd (show (404 : Nat) = 200 from h) (by decide),
      fun h => absurd (show (404 : Nat) = 200 from h) (by decide)⟩)
    (Or.inl (by decide))

end Wati
